import Mathlib

set_option maxHeartbeats 800000

/-!
Verification development for the Tile-Detection-and-Recommendation web app.

The definitions below are a shallow embedding of the repository's JavaScript
source:
  * the Validation Gate (`validateFile`, `handleFile`) from the ImageUploader
    component;
  * the Workflow Controller (`AppState` and the `handle*` transition
    functions) from `App.jsx`, with object-URL creation/revocation modelled
    by an explicit `HandleEnv` (the `createdSinceReset` field is ghost
    instrumentation recording which preview handles were created since the
    last reset);
  * the mock Detection and Recommendation services from `detectService.js`
    and `recommendService.js`, with each successive `Math.random()` draw
    passed explicitly as a real-number argument, `Math.pow` as `Real.rpow`,
    `toFixed(3)` as rounding to the nearest thousandth, and the JS stable
    `Array.sort` as `List.insertionSort` (stable insertion sort);
    the implementation-defined shuffle `sort(() => Math.random() - 0.5)`
    is abstracted as a `shuffle` parameter that permutes its input;
  * the ResultPage and RecommendationPage component logic from the page
    components (top-3 display, default reference-tile selection, the
    recommendation fetch effect, its failure handler and its retry button,
    which calls `window.location.reload()` and so restarts the application
    in its initial state).
The simulated network delay (`setTimeout` with a random delay) does not
affect any value a claim speaks about and is not modelled.
-/

namespace TileSpec

/-- An uploaded image blob as the browser hands it to the app: name,
MIME type and byte size. The binary payload is opaque and irrelevant
to validation. -/
structure FileB where
  name : String
  type : String
  size : Nat

/-- The fixed MIME allow-list from ImageUploader
(`ALLOWED_TYPES = ['image/png', 'image/jpeg', 'image/jpg']`). -/
def ALLOWED_TYPES : List String := ["image/png", "image/jpeg", "image/jpg"]

/-- The fixed size ceiling from ImageUploader (`10 * 1024 * 1024` bytes). -/
def MAX_FILE_SIZE : Nat := 10 * 1024 * 1024

/-- ImageUploader's `validateFile`: returns an error message for an invalid
candidate and `none` for a valid one, checking absence, then MIME type
against the allow-list, then byte size against the ceiling. -/
def validateFile : Option FileB → Option String
  | none => some "No file selected"
  | some file =>
    if file.type ∉ ALLOWED_TYPES then
      some "Invalid file type. Please upload PNG, JPG, or JPEG images only."
    else if file.size > MAX_FILE_SIZE then
      some "File too large. Maximum size is 10MB."
    else
      none

/-- ImageUploader's `handleFile`: runs `validateFile` and either surfaces the
error or passes the accepted blob through unchanged to `onImageSelect`. -/
def handleFile (candidate : Option FileB) : Except String FileB :=
  match validateFile candidate with
  | some err => Except.error err
  | none =>
    match candidate with
    | some file => Except.ok file
    | none => Except.error "No file selected"

/-- The three screens of the workflow (`currentPage` in `App.jsx`). -/
inductive Page where
  | upload
  | result
  | recommendation
deriving DecidableEq

/-- A detection as produced by the mock Detection Service:
`{ id, image, confidence }`. A detection chosen as reference tile has the
same shape. `id = 0` models a missing/falsy identifier (JS `!tile.id`). -/
structure Detection where
  id : Nat
  image : String
  confidence : ℝ

/-- A recommendation item as produced by the mock Recommendation Service:
`{ id, image, similarity }`. -/
structure RecItem where
  id : Nat
  image : String
  similarity : ℝ

/-- The Detection Service's result shape `{ detections: [...] }`. -/
structure DetectResult where
  detections : List Detection

/-- The Recommendation Service's result shape `{ recommendations: [...] }`. -/
structure RecResult where
  recommendations : List RecItem

/-- The Workflow Controller's state, the five `useState` cells of `App.jsx`:
current screen, uploaded blob, preview handle, detection results and the
tile selected for recommendations. Preview handles are numbered. -/
structure AppState where
  currentPage : Page
  uploadedImage : Option FileB
  imagePreview : Option Nat
  detectionResults : Option DetectResult
  selectedTile : Option Detection

/-- The object-URL environment: the next fresh handle number, the handles
created and not yet revoked (`live`), and — as ghost instrumentation for the
reset invariant — the handles created since the last reset. -/
structure HandleEnv where
  nextHandle : Nat
  live : List Nat
  createdSinceReset : List Nat

/-- The initial workflow state: Upload screen, no payload held. -/
def initialApp : AppState :=
  { currentPage := Page.upload
    uploadedImage := none
    imagePreview := none
    detectionResults := none
    selectedTile := none }

/-- The object-URL environment at startup. -/
def initialEnv : HandleEnv :=
  { nextHandle := 0, live := [], createdSinceReset := [] }

/-- `URL.createObjectURL`: returns a fresh handle and records it live. -/
def createObjectURL (env : HandleEnv) : Nat × HandleEnv :=
  (env.nextHandle,
    { nextHandle := env.nextHandle + 1
      live := env.nextHandle :: env.live
      createdSinceReset := env.nextHandle :: env.createdSinceReset })

/-- `URL.revokeObjectURL`: the handle stops being live. -/
def revokeObjectURL (env : HandleEnv) (h : Nat) : HandleEnv :=
  { env with live := env.live.erase h }

/-- `App.handleImageUpload`: stores the blob and a fresh preview handle.
Note that the source does not revoke a previously held preview handle. -/
def handleImageUpload (s : AppState) (env : HandleEnv) (file : FileB) :
    AppState × HandleEnv :=
  let created := createObjectURL env
  ({ s with uploadedImage := some file, imagePreview := some created.1 },
    created.2)

/-- `App.handleDetectionComplete`: the continuation `handleDetect` runs when
the Detection Service resolves — it stores the results and navigates to the
Result screen, applied to whatever state is current, with no check that the
resolving call is still the active request. -/
def handleDetectionComplete (s : AppState) (results : DetectResult) : AppState :=
  { s with detectionResults := some results, currentPage := Page.result }

/-- `App.handleReset`: revokes the currently held preview handle (if any),
clears every payload cell and returns to the Upload screen. The ghost
`createdSinceReset` list starts afresh. -/
def handleReset (s : AppState) (env : HandleEnv) : AppState × HandleEnv :=
  let env2 :=
    match s.imagePreview with
    | some h => revokeObjectURL env h
    | none => env
  (initialApp, { env2 with createdSinceReset := [] })

/-- `App.handleFindSimilar`: stores the chosen reference tile and navigates
to the Recommendation screen. -/
def handleFindSimilar (s : AppState) (tile : Detection) : AppState :=
  { s with selectedTile := some tile, currentPage := Page.recommendation }

/-- `App.handleBackToResults`: clears the reference tile and returns to the
Result screen. -/
def handleBackToResults (s : AppState) : AppState :=
  { s with selectedTile := none, currentPage := Page.result }

/-- RecommendationPage's component-local state: the `isLoading`,
`recommendations` and `error` `useState` cells plus the `hasFetchedRef`
mount guard. -/
structure RecPageState where
  isLoading : Bool
  recommendations : Option (List RecItem)
  error : Option String
  hasFetched : Bool

/-- RecommendationPage's component state on mount. -/
def initialRecPage : RecPageState :=
  { isLoading := false, recommendations := none, error := none
    hasFetched := false }

/-- RecommendationPage's mount effect: with no reference tile it only sets a
local error; otherwise, unless the one-shot `hasFetchedRef` latch is already
set, it sets the latch, enters the loading state and issues one
`getTileRecommendations` call. The boolean reports whether a call was
issued. -/
def recMountEffect (referenceTile : Option Detection) (c : RecPageState) :
    RecPageState × Bool :=
  match referenceTile with
  | none =>
    ({ c with error := some "No reference tile provided. Please go back and select a tile." },
      false)
  | some _ =>
    if c.hasFetched then (c, false)
    else ({ c with hasFetched := true, isLoading := true, error := none }, true)

/-- RecommendationPage's `catch`/`finally`: a failed recommendation call sets
a component-local error message and ends the loading state. -/
def recOnFailure (c : RecPageState) : RecPageState :=
  { c with error := some "Unable to find similar tiles. Please try again.", isLoading := false }

/-- RecommendationPage's success continuation: stores the resolved
recommendation list in component state and ends the loading state, with no
check that the resolving call is still the active request. -/
def recOnSuccess (c : RecPageState) (results : RecResult) : RecPageState :=
  { c with recommendations := some results.recommendations, isLoading := false }

/-- The failure step of the whole app: the Workflow Controller's state is
untouched (the `catch` block only writes component-local state). -/
def recFailureStep (s : AppState) (c : RecPageState) : AppState × RecPageState :=
  (s, recOnFailure c)

/-- The retry button of the recommendation error view: its `onClick` is
`window.location.reload()`, which restarts the single-page application with
all React state re-created from scratch — the resulting workflow state is
the initial one. -/
def retryAction (_s : AppState) (_c : RecPageState) : AppState :=
  initialApp

/-- How many Recommendation Service calls rendering the app in state `s`
issues: entering the Recommendation screen runs the mount effect on a fresh
component instance; every other screen issues none. -/
def recEntryCalls (s : AppState) : Nat :=
  match s.currentPage with
  | Page.recommendation =>
    if (recMountEffect s.selectedTile initialRecPage).2 then 1 else 0
  | _ => 0

/-- A catalog entry of the mock services (`{ id, image }`). -/
structure Tile where
  id : Nat
  image : String

/-- `detectService.js`'s `MOCK_TILES` catalog (three sample tiles). -/
def MOCK_TILES : List Tile :=
  [⟨1, "/mock/tile1.svg"⟩, ⟨2, "/mock/tile2.svg"⟩, ⟨3, "/mock/tile3.svg"⟩]

/-- `recommendService.js`'s `MOCK_RECOMMENDATION_TILES` catalog (eight
sample tiles). -/
def MOCK_RECOMMENDATION_TILES : List Tile :=
  [⟨101, "/mock/tile1.svg"⟩, ⟨102, "/mock/tile2.svg"⟩, ⟨103, "/mock/tile3.svg"⟩,
   ⟨104, "/mock/tile1.svg"⟩, ⟨105, "/mock/tile2.svg"⟩, ⟨106, "/mock/tile3.svg"⟩,
   ⟨107, "/mock/tile1.svg"⟩, ⟨108, "/mock/tile2.svg"⟩]

/-- `Number(x.toFixed(3))`: rounding to the nearest thousandth (the ES
`toFixed` picks the closest thousandth, the larger one on a tie, matching
`round`). -/
noncomputable def round3 (x : ℝ) : ℝ :=
  ((round (x * 1000) : ℤ) : ℝ) / 1000

/-- `detectService.js generateConfidence`: a power-law-skewed score
`0.5 + Math.pow(random, 0.7) * 0.49`, rounded to three decimals. The
argument is the `Math.random()` draw. -/
noncomputable def generateConfidence (random : ℝ) : ℝ :=
  round3 (0.5 + random ^ (0.7 : ℝ) * 0.49)

/-- `recommendService.js generateSimilarity`: a power-law-skewed score
`0.72 + Math.pow(random, 0.6) * (0.95 - 0.72)`, rounded to three
decimals. The argument is the `Math.random()` draw. -/
noncomputable def generateSimilarity (random : ℝ) : ℝ :=
  round3 (0.72 + random ^ (0.6 : ℝ) * (0.95 - 0.72))

/-- The JS comparator `(a, b) => b.confidence - a.confidence` as the order
the sort establishes: `a` precedes `b` when `b.confidence ≤ a.confidence`. -/
def detConfGE (a b : Detection) : Prop :=
  b.confidence ≤ a.confidence

noncomputable instance : DecidableRel detConfGE :=
  fun a b => inferInstanceAs (Decidable (b.confidence ≤ a.confidence))

instance : IsTotal Detection detConfGE :=
  ⟨fun a b => le_total b.confidence a.confidence⟩

instance : IsTrans Detection detConfGE :=
  ⟨fun _ _ _ hab hbc => le_trans hbc hab⟩

/-- The JS comparator `(a, b) => b.similarity - a.similarity` as the order
the sort establishes. -/
def recSimGE (a b : RecItem) : Prop :=
  b.similarity ≤ a.similarity

noncomputable instance : DecidableRel recSimGE :=
  fun a b => inferInstanceAs (Decidable (b.similarity ≤ a.similarity))

instance : IsTotal RecItem recSimGE :=
  ⟨fun a b => le_total b.similarity a.similarity⟩

instance : IsTrans RecItem recSimGE :=
  ⟨fun _ _ _ hab hbc => le_trans hbc hab⟩

/-- The `.map` of `generateMockDetections`: each catalog tile becomes a
detection whose confidence is `generateConfidence()` on that call's own
`Math.random()` draw (`confs i` is the draw of the i-th call). -/
noncomputable def assignConfidences (confs : Nat → ℝ) : Nat → List Tile → List Detection
  | _, [] => []
  | i, t :: ts =>
    ⟨t.id, t.image, generateConfidence (confs i)⟩ :: assignConfidences confs (i + 1) ts

/-- The `.map` of `generateMockRecommendations`: each selected tile becomes a
recommendation whose similarity is `generateSimilarity()` on that call's own
`Math.random()` draw. -/
noncomputable def assignSimilarities (sims : Nat → ℝ) : Nat → List Tile → List RecItem
  | _, [] => []
  | i, t :: ts =>
    ⟨t.id, t.image, generateSimilarity (sims i)⟩ :: assignSimilarities sims (i + 1) ts

/-- `detectService.js generateMockDetections`: with probability
`EMPTY_DETECTION_PROBABILITY = 0.25` the result is empty; otherwise
`numDetections = Math.floor(Math.random() * 3) + 3` tiles are taken from
`MOCK_TILES`, given confidences, and sorted by confidence descending.
`rEmpty` and `rNum` are the two `Math.random()` draws. -/
noncomputable def generateMockDetections (rEmpty rNum : ℝ) (confs : Nat → ℝ) :
    DetectResult :=
  if rEmpty < 0.25 then ⟨[]⟩
  else
    let numDetections := (⌊rNum * 3⌋).toNat + 3
    let detections := assignConfidences confs 0 (MOCK_TILES.take numDetections)
    ⟨List.insertionSort detConfGE detections⟩

/-- `availableTiles` of `generateMockRecommendations`: the catalog filtered
by `tile.id !== referenceTile?.id` (with no reference tile, the optional
chaining yields `undefined` and nothing is excluded). -/
def availableTiles (referenceTile : Option Detection) : List Tile :=
  MOCK_RECOMMENDATION_TILES.filter fun tile =>
    match referenceTile with
    | none => true
    | some t => tile.id != t.id

/-- `recommendService.js generateMockRecommendations`: with probability
`EMPTY_RECOMMENDATION_PROBABILITY = 0.1` the result is empty; otherwise
`numRecommendations = Math.floor(Math.random() * 4) + 5` tiles are taken
from the shuffled available catalog, given similarities, and sorted by
similarity descending. The implementation-defined shuffle
(`sort(() => Math.random() - 0.5)`) is the `shuffle` parameter; the source
guarantees only that it permutes its input. -/
noncomputable def generateMockRecommendations (shuffle : List Tile → List Tile)
    (referenceTile : Option Detection) (rEmpty rNum : ℝ) (sims : Nat → ℝ) :
    RecResult :=
  if rEmpty < 0.1 then ⟨[]⟩
  else
    let numRecommendations := (⌊rNum * 4⌋).toNat + 5
    let shuffled := shuffle (availableTiles referenceTile)
    let selected := shuffled.take numRecommendations
    let recommendations := assignSimilarities sims 0 selected
    ⟨List.insertionSort recSimGE recommendations⟩

/-- `recommendService.js getTileRecommendations`: throws
`'Invalid reference tile provided'` when the reference tile is absent or its
`id` is falsy (`!referenceTile || !referenceTile.id`); otherwise it resolves
with the generated mock recommendations (the generator is total, so the
`try`-block's reject path is unreachable). -/
noncomputable def getTileRecommendations (shuffle : List Tile → List Tile)
    (referenceTile : Option Detection) (rEmpty rNum : ℝ) (sims : Nat → ℝ) :
    Except String RecResult :=
  match referenceTile with
  | none => Except.error "Invalid reference tile provided"
  | some t =>
    if t.id = 0 then Except.error "Invalid reference tile provided"
    else Except.ok (generateMockRecommendations shuffle (some t) rEmpty rNum sims)

/-- ResultPage's `detectionResults?.detections` access: the held detection
list, empty when no results object is held. -/
def getDetections (dr : Option DetectResult) : List Detection :=
  match dr with
  | some r => r.detections
  | none => []

/-- ResultPage's `topDetections`: when there are detections, a copy of the
list sorted by confidence descending and cut to the first three
(`.sort((a, b) => b.confidence - a.confidence).slice(0, 3)`); otherwise
empty. These are exactly the detections the Result screen renders. -/
noncomputable def topDetections (dr : Option DetectResult) : List Detection :=
  if 0 < (getDetections dr).length then
    (List.insertionSort detConfGE (getDetections dr)).take 3
  else []

/-- ResultPage's results summary: `Found {topDetections.length} matching
tile(s)`. -/
noncomputable def foundCount (dr : Option DetectResult) : Nat :=
  (topDetections dr).length

/-- ResultPage's `handleFindSimilar`: when a detection exists it passes
`topDetections[0]` — the highest-confidence detection — to
`onFindSimilar`, which stores it as the reference tile and navigates to the
Recommendation screen; with no detections it does nothing. -/
noncomputable def resultFindSimilar (dr : Option DetectResult) (s : AppState) :
    AppState :=
  match (topDetections dr).head? with
  | some t => handleFindSimilar s t
  | none => s

/-- The reference tile the Result screen can select: `topDetections[0]` when
it exists. -/
noncomputable def resultSelectedTile (dr : Option DetectResult) : Option Detection :=
  (topDetections dr).head?

/-- Modelled from the spec: "the detection with the highest confidence,
tie-break by original order" — the first list element whose confidence is
maximal. Used to compare the code's default-selection policy against the
spec's words. -/
noncomputable def firstMaxDetection : List Detection → Option Detection
  | [] => none
  | x :: xs =>
    match firstMaxDetection xs with
    | none => some x
    | some m => if m.confidence ≤ x.confidence then some x else some m

/-! ## Validation Gate (C4) -/

/-- C4: `validate` returns Ok exactly when the blob is present, its MIME
type is in the fixed allow-list and its byte size does not exceed the
10 MiB ceiling; an accepted blob is passed through unchanged; every other
candidate is rejected with a reason. -/
theorem c4_validation_gate (candidate : Option FileB) :
    ((∃ file, handleFile candidate = Except.ok file) ↔
      (∃ file, candidate = some file ∧ file.type ∈ ALLOWED_TYPES ∧
        file.size ≤ MAX_FILE_SIZE)) ∧
    (∀ file, handleFile candidate = Except.ok file → candidate = some file) ∧
    ((¬ ∃ file, candidate = some file ∧ file.type ∈ ALLOWED_TYPES ∧
        file.size ≤ MAX_FILE_SIZE) →
      ∃ reason, handleFile candidate = Except.error reason) := by
  cases candidate with
  | none => simp [handleFile, validateFile]
  | some f =>
    by_cases ht : f.type ∈ ALLOWED_TYPES
    · by_cases hs : f.size ≤ MAX_FILE_SIZE
      · have hok : handleFile (some f) = Except.ok f := by
          simp [handleFile, validateFile, ht, not_lt.mpr hs]
        refine ⟨?_, ?_, ?_⟩
        · simp [hok]
          exact ⟨ht, hs⟩
        · intro file hfile
          rw [hok] at hfile
          cases hfile
          rfl
        · intro hno
          exact absurd ⟨f, rfl, ht, hs⟩ hno
      · have herr : handleFile (some f) =
            Except.error "File too large. Maximum size is 10MB." := by
          simp [handleFile, validateFile, ht, not_le.mp hs]
        refine ⟨?_, ?_, fun _ => ⟨_, herr⟩⟩
        · simp [herr]
          intro _
          exact not_le.mp hs
        · intro file hfile
          rw [herr] at hfile
          cases hfile
    · have herr : handleFile (some f) =
          Except.error "Invalid file type. Please upload PNG, JPG, or JPEG images only." := by
        simp [handleFile, validateFile, ht]
      refine ⟨?_, ?_, fun _ => ⟨_, herr⟩⟩
      · simp [herr]
        intro hx
        exact absurd hx ht
      · intro file hfile
        rw [herr] at hfile
        cases hfile

/-- A sample 2 KiB PNG candidate. -/
def testPng : FileB := ⟨"tile.png", "image/png", 2048⟩

/-- C4 witness: the sample PNG is accepted, by the gate theorem at a
concrete input. -/
theorem c4_validation_gate_witness :
    ∃ file, handleFile (some testPng) = Except.ok file :=
  (c4_validation_gate (some testPng)).1.mpr
    ⟨testPng, rfl, by simp [testPng, ALLOWED_TYPES], by norm_num [testPng, MAX_FILE_SIZE]⟩

/-! ## Reset and preview handles (C9) -/

/-- A sample PNG upload. -/
def demoPng : FileB := ⟨"a.png", "image/png", 1000⟩

/-- A sample JPEG upload replacing the first one. -/
def demoJpg : FileB := ⟨"b.jpg", "image/jpeg", 2000⟩

/-- The workflow after two successive uploads with no reset in between. -/
def c9BeforeReset : AppState × HandleEnv :=
  let step1 := handleImageUpload initialApp initialEnv demoPng
  handleImageUpload step1.1 step1.2 demoJpg

/-- The workflow just after resetting from that point. -/
def c9AfterReset : AppState × HandleEnv :=
  handleReset c9BeforeReset.1 c9BeforeReset.2

/-- C9 counterexample: after uploading twice and resetting, the state is the
initial one, but preview handle 0 — created since the last reset and
superseded by the second upload — is still live: a display handle survives
the reset, contrary to the claim. -/
theorem c9_counterexample :
    c9AfterReset.1 = initialApp ∧
    0 ∈ c9BeforeReset.2.createdSinceReset ∧
    0 ∈ c9AfterReset.2.live := by
  refine ⟨rfl, ?_, ?_⟩ <;> decide

/-- C9 amended: reset from any screen returns the workflow state to exactly
the initial state and revokes the currently held preview handle; handles
already superseded before the reset are not revoked by it. -/
theorem c9_reset_amended (s : AppState) (env : HandleEnv) :
    (handleReset s env).1 = initialApp ∧
    (handleReset s env).2.live =
      (match s.imagePreview with
        | some h => env.live.erase h
        | none => env.live) := by
  cases h : s.imagePreview <;> simp [handleReset, revokeObjectURL, h]

/-! ## Recommendation failure and retry (C2) -/

/-- The reference tile of the failing scenario. -/
def c2Tile : Detection := ⟨1, "/mock/tile1.svg", 0.91⟩

/-- The app showing the Recommendation screen for that tile. -/
def c2FailedApp : AppState :=
  { initialApp with currentPage := Page.recommendation, selectedTile := some c2Tile }

/-- The component state after its recommendation call failed. -/
def c2FailedComp : RecPageState :=
  recOnFailure { initialRecPage with hasFetched := true, isLoading := true }

/-- C2 counterexample: invoking the retry action after a failed
recommendation call does not re-issue one new Recommendation Service call
with the same reference tile — the reload restarts the app at the Upload
screen with no reference tile and issues no call. -/
theorem c2_counterexample :
    ¬ (recEntryCalls (retryAction c2FailedApp c2FailedComp) = 1 ∧
      (retryAction c2FailedApp c2FailedComp).selectedTile = some c2Tile) := by
  simp [retryAction, recEntryCalls, initialApp]

/-- C2 amended: a failed Recommendation Service call leaves the workflow
state — in particular the stored reference tile — untouched and surfaces a
component-local error; but the offered retry action reloads the application,
returning it to the initial Upload state with the reference tile discarded
and no new Recommendation Service call issued. -/
theorem c2_failure_and_retry (s : AppState) (c : RecPageState) :
    (recFailureStep s c).1 = s ∧
    (recFailureStep s c).1.selectedTile = s.selectedTile ∧
    ((recFailureStep s c).2.error).isSome = true ∧
    retryAction s c = initialApp ∧
    (retryAction s c).selectedTile = none ∧
    recEntryCalls (retryAction s c) = 0 :=
  ⟨rfl, rfl, rfl, rfl, rfl, rfl⟩

/-! ## Stale-result application (C3) -/

/-- C3: the repository's resolution handlers consult no request token.
Evaluated at the failing input — a detect call resolving after the workflow
was reset to the initial state — the result is applied anyway: the state
navigates to the Result screen and stores the stale DetectionSet. In
general both the detect and the recommend continuations apply their result
unconditionally to whatever state is current. -/
theorem c3_no_active_request_guard :
    (handleDetectionComplete initialApp ⟨[]⟩).currentPage = Page.result ∧
    (handleDetectionComplete initialApp ⟨[]⟩).detectionResults = some ⟨[]⟩ ∧
    (∀ (s : AppState) (results : DetectResult),
      handleDetectionComplete s results =
        { s with detectionResults := some results, currentPage := Page.result }) ∧
    (∀ (c : RecPageState) (results : RecResult),
      recOnSuccess c results =
        { c with recommendations := some results.recommendations, isLoading := false }) :=
  ⟨rfl, rfl, fun _ _ => rfl, fun _ _ => rfl⟩

/-! ## Mock service result sizes (C1) -/

/-- Assigning confidences preserves the list length. -/
theorem assignConfidences_length (confs : Nat → ℝ) (i : Nat) (l : List Tile) :
    (assignConfidences confs i l).length = l.length := by
  induction l generalizing i with
  | nil => rfl
  | cons t ts ih => simp [assignConfidences, ih]

/-- Assigning similarities preserves the list length. -/
theorem assignSimilarities_length (sims : Nat → ℝ) (i : Nat) (l : List Tile) :
    (assignSimilarities sims i l).length = l.length := by
  induction l generalizing i with
  | nil => rfl
  | cons t ts ih => simp [assignSimilarities, ih]

/-- The detection result size: empty on the empty-probability branch and
exactly three otherwise, because `MOCK_TILES.slice(0, numDetections)` can
never yield more tiles than the three the catalog holds. -/
theorem generateMockDetections_length (rEmpty rNum : ℝ) (confs : Nat → ℝ) :
    (generateMockDetections rEmpty rNum confs).detections.length =
      if rEmpty < 0.25 then 0 else 3 := by
  by_cases h : rEmpty < 0.25
  · simp [generateMockDetections, h]
  · simp only [generateMockDetections, if_neg h]
    rw [List.length_insertionSort, assignConfidences_length, List.length_take]
    simp [MOCK_TILES]

/-- `availableTiles` written out for a present reference tile. -/
theorem availableTiles_some (t : Detection) :
    availableTiles (some t) =
      MOCK_RECOMMENDATION_TILES.filter (fun tile => tile.id != t.id) := rfl

/-- Filtering the eight-tile catalog by "id different from `n`" removes at
most one tile, because the catalog ids are pairwise distinct. -/
theorem filter_ne_id_length (n : Nat) :
    7 ≤ (MOCK_RECOMMENDATION_TILES.filter fun tile => tile.id != n).length := by
  by_cases h : n ∈ [101, 102, 103, 104, 105, 106, 107, 108]
  · fin_cases h <;> decide
  · have hall : (MOCK_RECOMMENDATION_TILES.filter fun tile => tile.id != n) =
        MOCK_RECOMMENDATION_TILES := by
      apply List.filter_eq_self.mpr
      intro a ha
      simp only [MOCK_RECOMMENDATION_TILES] at ha
      fin_cases ha <;> simp_all <;> omega
    rw [hall]
    decide

/-- The available mock catalog holds between seven and eight tiles for every
reference tile: at most one catalog entry shares the reference identifier. -/
theorem availableTiles_length (referenceTile : Option Detection) :
    7 ≤ (availableTiles referenceTile).length ∧
      (availableTiles referenceTile).length ≤ 8 := by
  cases referenceTile with
  | none => decide
  | some t =>
    constructor
    · rw [availableTiles_some]
      exact filter_ne_id_length t.id
    · rw [availableTiles_some]
      have h := List.length_filter_le (fun tile => tile.id != t.id)
        MOCK_RECOMMENDATION_TILES
      simpa [MOCK_RECOMMENDATION_TILES] using h

/-- The recommendation result size: empty on the empty-probability branch and
otherwise the requested count capped by the available catalog. -/
theorem generateMockRecommendations_length (shuffle : List Tile → List Tile)
    (hsh : ∀ l, List.Perm (shuffle l) l) (referenceTile : Option Detection)
    (rEmpty rNum : ℝ) (sims : Nat → ℝ) :
    (generateMockRecommendations shuffle referenceTile rEmpty rNum sims).recommendations.length =
      if rEmpty < 0.1 then 0
      else min ((⌊rNum * 4⌋).toNat + 5) (availableTiles referenceTile).length := by
  by_cases h : rEmpty < 0.1
  · simp [generateMockRecommendations, h]
  · simp only [generateMockRecommendations, if_neg h]
    rw [List.length_insertionSort, assignSimilarities_length, List.length_take,
      (hsh (availableTiles referenceTile)).length_eq]

/-- C1: every non-empty detection result has between 3 and 5 detections (in
fact always exactly 3, which is within the claimed bounds), and every
non-empty recommendation result has between 5 and 8 items, bounded by the
size of the mock catalog after excluding the reference tile's identifier. -/
theorem c1_result_cardinalities :
    (∀ (rEmpty rNum : ℝ) (confs : Nat → ℝ),
      (generateMockDetections rEmpty rNum confs).detections ≠ [] →
        3 ≤ (generateMockDetections rEmpty rNum confs).detections.length ∧
        (generateMockDetections rEmpty rNum confs).detections.length ≤ 5) ∧
    (∀ (shuffle : List Tile → List Tile), (∀ l, List.Perm (shuffle l) l) →
      ∀ (referenceTile : Option Detection) (rEmpty rNum : ℝ) (sims : Nat → ℝ),
        (generateMockRecommendations shuffle referenceTile rEmpty rNum
            sims).recommendations ≠ [] →
          5 ≤ (generateMockRecommendations shuffle referenceTile rEmpty rNum
              sims).recommendations.length ∧
          (generateMockRecommendations shuffle referenceTile rEmpty rNum
              sims).recommendations.length ≤ 8 ∧
          (generateMockRecommendations shuffle referenceTile rEmpty rNum
              sims).recommendations.length ≤
            (availableTiles referenceTile).length) := by
  constructor
  · intro rE rN confs hne
    have hlen := generateMockDetections_length rE rN confs
    by_cases h : rE < 0.25
    · rw [if_pos h] at hlen
      exact absurd (List.length_eq_zero.mp hlen) hne
    · rw [if_neg h] at hlen
      omega
  · intro shuffle hsh rt rE rN sims hne
    have hlen := generateMockRecommendations_length shuffle hsh rt rE rN sims
    have havail := availableTiles_length rt
    by_cases h : rE < 0.1
    · rw [if_pos h] at hlen
      exact absurd (List.length_eq_zero.mp hlen) hne
    · rw [if_neg h] at hlen
      omega

/-- C1 witness: concrete draws that take the non-empty branches (empty draw
0.5, size draw 0, identity shuffle, no reference exclusion) produce a
3-detection set and a 5-item recommendation set, within the claimed bounds. -/
theorem c1_result_cardinalities_witness :
    ((generateMockDetections 0.5 0 (fun _ => 0)).detections ≠ [] ∧
      3 ≤ (generateMockDetections 0.5 0 (fun _ => 0)).detections.length ∧
      (generateMockDetections 0.5 0 (fun _ => 0)).detections.length ≤ 5) ∧
    ((generateMockRecommendations (fun l => l) none 0.5 0
        (fun _ => 0)).recommendations ≠ [] ∧
      5 ≤ (generateMockRecommendations (fun l => l) none 0.5 0
          (fun _ => 0)).recommendations.length ∧
      (generateMockRecommendations (fun l => l) none 0.5 0
          (fun _ => 0)).recommendations.length ≤ 8) := by
  have hdet : (generateMockDetections (0.5 : ℝ) 0 (fun _ => 0)).detections.length = 3 := by
    rw [generateMockDetections_length]
    norm_num
  have h8 : (availableTiles none).length = 8 := by decide
  have hrec : (generateMockRecommendations (fun l => l) none (0.5 : ℝ) 0
      (fun _ => 0)).recommendations.length = 5 := by
    rw [generateMockRecommendations_length (fun l => l) (fun l => List.Perm.refl l)]
    rw [h8]
    norm_num
  have hdne : (generateMockDetections (0.5 : ℝ) 0 (fun _ => 0)).detections ≠ [] := by
    intro hcon
    rw [hcon] at hdet
    exact absurd hdet (by norm_num)
  have hrne : (generateMockRecommendations (fun l => l) none (0.5 : ℝ) 0
      (fun _ => 0)).recommendations ≠ [] := by
    intro hcon
    rw [hcon] at hrec
    exact absurd hrec (by norm_num)
  have hmain := c1_result_cardinalities
  have h1 := hmain.1 0.5 0 (fun _ => 0) hdne
  have h2 := hmain.2 (fun l => l) (fun l => List.Perm.refl l) none 0.5 0 (fun _ => 0) hrne
  exact ⟨⟨hdne, h1.1, h1.2⟩, ⟨hrne, h2.1, h2.2.1⟩⟩

/-! ## Result ordering (C5) -/

/-- C5: every result either service returns is sorted by its score
non-increasingly (the generators end with a descending sort, so this holds
for the empty results, too). -/
theorem c5_results_sorted :
    (∀ (rEmpty rNum : ℝ) (confs : Nat → ℝ),
      List.Sorted detConfGE (generateMockDetections rEmpty rNum confs).detections) ∧
    (∀ (shuffle : List Tile → List Tile) (referenceTile : Option Detection)
        (rEmpty rNum : ℝ) (sims : Nat → ℝ),
      List.Sorted recSimGE
        (generateMockRecommendations shuffle referenceTile rEmpty rNum
          sims).recommendations) := by
  constructor
  · intro rE rN confs
    by_cases h : rE < 0.25
    · simp [generateMockDetections, h]
    · simp only [generateMockDetections, if_neg h]
      exact List.sorted_insertionSort detConfGE _
  · intro shuffle rt rE rN sims
    by_cases h : rE < 0.1
    · simp [generateMockRecommendations, h]
    · simp only [generateMockRecommendations, if_neg h]
      exact List.sorted_insertionSort recSimGE _

/-! ## Score ranges (C6) -/

/-- Rounding to the nearest thousandth keeps a value between two thousandth
bounds: the lower bound is closed and the upper bound is strict before
rounding, closed after. -/
theorem round3_bounds (a b : ℤ) (x : ℝ) (h1 : (a : ℝ) / 1000 ≤ x)
    (h2 : x < (b : ℝ) / 1000) :
    (a : ℝ) / 1000 ≤ round3 x ∧ round3 x ≤ (b : ℝ) / 1000 := by
  have h1000 : (0 : ℝ) < 1000 := by norm_num
  have ha : (a : ℝ) ≤ x * 1000 := (div_le_iff₀ h1000).mp h1
  have hb : x * 1000 < (b : ℝ) := (lt_div_iff₀ h1000).mp h2
  have hra : a ≤ round (x * 1000) := by
    rw [round_eq]
    apply Int.le_floor.mpr
    linarith
  have hrb : round (x * 1000) ≤ b := by
    rw [round_eq]
    have hfl : ((⌊x * 1000 + 1 / 2⌋ : ℤ) : ℝ) ≤ x * 1000 + 1 / 2 := Int.floor_le _
    have hlt : ((⌊x * 1000 + 1 / 2⌋ : ℤ) : ℝ) < (b : ℝ) + 1 := by linarith
    exact Int.lt_add_one_iff.mp (by exact_mod_cast hlt)
  constructor
  · unfold round3
    exact (div_le_div_iff_of_pos_right h1000).mpr (by exact_mod_cast hra)
  · unfold round3
    exact (div_le_div_iff_of_pos_right h1000).mpr (by exact_mod_cast hrb)

/-- C6: for every random-source value in [0, 1), the rounded detection
confidence lies in [0.5, 0.99] and the rounded recommendation similarity
lies in [0.72, 0.95]. -/
theorem c6_score_ranges (random : ℝ) (h0 : 0 ≤ random) (h1 : random < 1) :
    (0.5 ≤ generateConfidence random ∧ generateConfidence random ≤ 0.99) ∧
    (0.72 ≤ generateSimilarity random ∧ generateSimilarity random ≤ 0.95) := by
  have hw7a : 0 ≤ random ^ (0.7 : ℝ) := Real.rpow_nonneg h0 _
  have hw7b : random ^ (0.7 : ℝ) < 1 := Real.rpow_lt_one h0 h1 (by norm_num)
  have hw6a : 0 ≤ random ^ (0.6 : ℝ) := Real.rpow_nonneg h0 _
  have hw6b : random ^ (0.6 : ℝ) < 1 := Real.rpow_lt_one h0 h1 (by norm_num)
  constructor
  · have hmul1 : 0 ≤ random ^ (0.7 : ℝ) * 0.49 := mul_nonneg hw7a (by norm_num)
    have hmul2 : random ^ (0.7 : ℝ) * 0.49 < 0.49 := by nlinarith
    have hb := round3_bounds 500 990 (0.5 + random ^ (0.7 : ℝ) * 0.49)
      (by push_cast; linarith) (by push_cast; linarith)
    have hc : generateConfidence random = round3 (0.5 + random ^ (0.7 : ℝ) * 0.49) := rfl
    rw [hc]
    constructor
    · have h := hb.1
      norm_num at h ⊢
      exact h
    · have h := hb.2
      norm_num at h ⊢
      exact h
  · have hmul1 : 0 ≤ random ^ (0.6 : ℝ) * (0.95 - 0.72) := mul_nonneg hw6a (by norm_num)
    have hmul2 : random ^ (0.6 : ℝ) * (0.95 - 0.72) < 0.23 := by nlinarith
    have hb := round3_bounds 720 950 (0.72 + random ^ (0.6 : ℝ) * (0.95 - 0.72))
      (by push_cast; linarith) (by push_cast; linarith)
    have hc : generateSimilarity random =
        round3 (0.72 + random ^ (0.6 : ℝ) * (0.95 - 0.72)) := rfl
    rw [hc]
    constructor
    · have h := hb.1
      norm_num at h ⊢
      exact h
    · have h := hb.2
      norm_num at h ⊢
      exact h

/-- C6 witness: the range theorem applied at the concrete draw 0. -/
theorem c6_score_ranges_witness :
    (0 : ℝ) ≤ 0 ∧ (0 : ℝ) < 1 ∧
    ((0.5 ≤ generateConfidence 0 ∧ generateConfidence 0 ≤ 0.99) ∧
      (0.72 ≤ generateSimilarity 0 ∧ generateSimilarity 0 ≤ 0.95)) :=
  ⟨le_refl 0, by norm_num, c6_score_ranges 0 (le_refl 0) (by norm_num)⟩

/-! ## Recommendation failure semantics (C7) -/

/-- C7: `getTileRecommendations` rejects exactly when the reference tile is
absent or its identifier is falsy; every other input succeeds, and the empty
recommendation set (the empty-probability branch) is a successful result,
not an error. -/
theorem c7_recommend_failure_semantics (shuffle : List Tile → List Tile)
    (referenceTile : Option Detection) (rEmpty rNum : ℝ) (sims : Nat → ℝ) :
    ((∃ e, getTileRecommendations shuffle referenceTile rEmpty rNum sims =
        Except.error e) ↔
      (referenceTile = none ∨ ∃ t, referenceTile = some t ∧ t.id = 0)) ∧
    (∀ t, referenceTile = some t → t.id ≠ 0 →
      getTileRecommendations shuffle referenceTile rEmpty rNum sims =
        Except.ok (generateMockRecommendations shuffle (some t) rEmpty rNum sims)) ∧
    (∀ t, referenceTile = some t → t.id ≠ 0 → rEmpty < 0.1 →
      getTileRecommendations shuffle referenceTile rEmpty rNum sims =
        Except.ok ⟨[]⟩) := by
  cases referenceTile with
  | none =>
    refine ⟨?_, ?_, ?_⟩
    · simp [getTileRecommendations]
    · intro t ht
      exact absurd ht (by simp)
    · intro t ht
      exact absurd ht (by simp)
  | some t0 =>
    by_cases hid : t0.id = 0
    · have he : getTileRecommendations shuffle (some t0) rEmpty rNum sims =
          Except.error "Invalid reference tile provided" := by
        simp [getTileRecommendations, hid]
      refine ⟨?_, ?_, ?_⟩
      · exact ⟨fun _ => Or.inr ⟨t0, rfl, hid⟩, fun _ => ⟨_, he⟩⟩
      · intro t ht hne
        cases ht
        exact absurd hid hne
      · intro t ht hne
        cases ht
        exact absurd hid hne
    · have hok : getTileRecommendations shuffle (some t0) rEmpty rNum sims =
          Except.ok (generateMockRecommendations shuffle (some t0) rEmpty rNum sims) := by
        simp [getTileRecommendations, hid]
      refine ⟨?_, ?_, ?_⟩
      · simp [hok, hid]
      · intro t ht hne
        cases ht
        exact hok
      · intro t ht hne hre
        cases ht
        rw [hok]
        simp [generateMockRecommendations, if_pos hre]

/-- The reference tile of the C7 witness: a valid identifier. -/
def c7Tile : Detection := ⟨101, "/mock/tile1.svg", 0.91⟩

/-- C7 witness: the failure-semantics theorem applied at a concrete, valid
reference tile and an empty-branch draw — the empty set comes back as a
successful result. -/
theorem c7_recommend_failure_semantics_witness :
    c7Tile.id ≠ 0 ∧ (0.05 : ℝ) < 0.1 ∧
    getTileRecommendations (fun l => l) (some c7Tile) 0.05 0 (fun _ => 0) =
      Except.ok ⟨[]⟩ :=
  ⟨by simp [c7Tile], by norm_num,
    (c7_recommend_failure_semantics (fun l => l) (some c7Tile) 0.05 0
        (fun _ => 0)).2.2 c7Tile rfl (by simp [c7Tile]) (by norm_num)⟩

/-! ## Default reference-tile selection (C8) and top-3 display (C10) -/

/-- Taking a prefix does not change the first element. -/
theorem head_take_three (l : List Detection) : (l.take 3).head? = l.head? := by
  cases l <;> rfl

/-- The head of the stable descending sort is the first maximal element of
the original list: the sort is `insertionSort`, whose `orderedInsert` puts
an earlier element before every later element it does not strictly lose
to — exactly the stability the JS sort guarantees. -/
theorem insertionSort_head_firstMax (l : List Detection) :
    (List.insertionSort detConfGE l).head? = firstMaxDetection l := by
  induction l with
  | nil => rfl
  | cons x xs ih =>
    rw [List.insertionSort]
    cases hs : List.insertionSort detConfGE xs with
    | nil =>
      have hxs : xs = [] := by
        have hp := List.perm_insertionSort detConfGE xs
        rw [hs] at hp
        exact (hp.symm).eq_nil
      simp [List.orderedInsert, firstMaxDetection, hxs]
    | cons y ys =>
      have hm : firstMaxDetection xs = some y := by
        rw [← ih, hs]
        rfl
      rw [List.orderedInsert]
      by_cases hxy : detConfGE x y
      · rw [if_pos hxy]
        simp only [firstMaxDetection, hm]
        have hxy2 : y.confidence ≤ x.confidence := hxy
        rw [if_pos hxy2]
        rfl
      · rw [if_neg hxy]
        simp only [firstMaxDetection, hm]
        have hxy2 : ¬ y.confidence ≤ x.confidence := hxy
        rw [if_neg hxy2]
        rfl

/-- `firstMaxDetection` of a non-empty list is a member attaining the
maximal confidence at the earliest position: every earlier element has
strictly smaller confidence. -/
theorem firstMaxDetection_spec (l : List Detection) (hne : l ≠ []) :
    ∃ m, firstMaxDetection l = some m ∧ m ∈ l ∧
      (∀ x ∈ l, x.confidence ≤ m.confidence) ∧
      ∃ j, ∃ hj : j < l.length, l.get ⟨j, hj⟩ = m ∧
        ∀ i, ∀ hi : i < j, (l.get ⟨i, Nat.lt_trans hi hj⟩).confidence
          < m.confidence := by
  induction l with
  | nil => exact absurd rfl hne
  | cons x xs ih =>
    by_cases hxs : xs = []
    · subst hxs
      refine ⟨x, rfl, List.mem_cons_self x [], ?_, 0, by simp, rfl, ?_⟩
      · intro y hy
        rcases List.mem_cons.mp hy with rfl | hy2
        · exact le_refl _
        · cases hy2
      · intro i hi
        exact absurd hi (Nat.not_lt_zero i)
    · obtain ⟨m, hm, hmem, hmax, j, hj, hget, hfirst⟩ := ih hxs
      by_cases hcmp : m.confidence ≤ x.confidence
      · refine ⟨x, ?_, List.mem_cons_self x xs, ?_, 0, by simp, rfl, ?_⟩
        · simp only [firstMaxDetection, hm]
          rw [if_pos hcmp]
        · intro y hy
          rcases List.mem_cons.mp hy with rfl | hy2
          · exact le_refl _
          · exact le_trans (hmax y hy2) hcmp
        · intro i hi
          exact absurd hi (Nat.not_lt_zero i)
      · refine ⟨m, ?_, List.mem_cons_of_mem x hmem, ?_,
          j + 1, Nat.succ_lt_succ hj, hget, ?_⟩
        · simp only [firstMaxDetection, hm]
          rw [if_neg hcmp]
        · intro y hy
          rcases List.mem_cons.mp hy with rfl | hy2
          · exact le_of_lt (not_le.mp hcmp)
          · exact hmax y hy2
        · intro i hi
          cases i with
          | zero => exact not_le.mp hcmp
          | succ i2 => exact hfirst i2 (Nat.lt_of_succ_lt_succ hi)

/-- C8: with detections held and none explicitly chosen, the Find Similar
action stores exactly the detection with the highest confidence — earliest
original position on ties — as the reference tile and moves to the
Recommendation screen. -/
theorem c8_default_reference_selection (dr : DetectResult) (s : AppState)
    (hne : dr.detections ≠ []) :
    ∃ m, resultFindSimilar (some dr) s =
        { s with selectedTile := some m, currentPage := Page.recommendation } ∧
      m ∈ dr.detections ∧
      (∀ x ∈ dr.detections, x.confidence ≤ m.confidence) ∧
      ∃ j, ∃ hj : j < dr.detections.length, dr.detections.get ⟨j, hj⟩ = m ∧
        ∀ i, ∀ hi : i < j, (dr.detections.get ⟨i, Nat.lt_trans hi hj⟩).confidence
          < m.confidence := by
  obtain ⟨m, hm, hmem, hmax, hidx⟩ := firstMaxDetection_spec dr.detections hne
  have hpos : 0 < (getDetections (some dr)).length := List.length_pos.mpr hne
  have hhead : (topDetections (some dr)).head? = some m := by
    unfold topDetections
    rw [if_pos hpos, head_take_three, insertionSort_head_firstMax]
    exact hm
  refine ⟨m, ?_, hmem, hmax, hidx⟩
  unfold resultFindSimilar
  rw [hhead]
  rfl

/-- The four-detection input of the C8 witness; the maximum 0.91 sits in the
middle of the list. -/
def c8Detections : DetectResult :=
  ⟨[⟨1, "/mock/tile1.svg", 0.55⟩, ⟨2, "/mock/tile2.svg", 0.91⟩,
    ⟨3, "/mock/tile3.svg", 0.77⟩, ⟨4, "/mock/tile1.svg", 0.63⟩]⟩

/-- C8 witness: the selection theorem applied at a concrete detection set
and the initial app state. -/
theorem c8_default_reference_selection_witness :
    c8Detections.detections ≠ [] ∧
    ∃ m, resultFindSimilar (some c8Detections) initialApp =
      { initialApp with selectedTile := some m, currentPage := Page.recommendation } := by
  have hne : c8Detections.detections ≠ [] := by simp [c8Detections]
  obtain ⟨m, h1, _⟩ := c8_default_reference_selection c8Detections initialApp hne
  exact ⟨hne, m, h1⟩

/-- C10: for every non-empty held detection set, the Result screen renders
at most the top three detections, sorted by confidence descending, each at
least as confident as every undisplayed detection; the reported found count
is min(3, number of detections); and the only selectable reference tile is
one of the displayed (top-3) detections. -/
theorem c10_result_top3 (dr : DetectResult) (hne : dr.detections ≠ []) :
    foundCount (some dr) = min 3 dr.detections.length ∧
    (topDetections (some dr)).length ≤ 3 ∧
    List.Sorted detConfGE (topDetections (some dr)) ∧
    (∀ a ∈ topDetections (some dr),
      ∀ b ∈ (List.insertionSort detConfGE dr.detections).drop 3,
        b.confidence ≤ a.confidence) ∧
    (∀ t, resultSelectedTile (some dr) = some t →
      t ∈ topDetections (some dr)) := by
  have hpos : 0 < (getDetections (some dr)).length := List.length_pos.mpr hne
  have htop : topDetections (some dr) =
      (List.insertionSort detConfGE dr.detections).take 3 := by
    unfold topDetections
    rw [if_pos hpos]
    rfl
  have hsorted : List.Sorted detConfGE (List.insertionSort detConfGE dr.detections) :=
    List.sorted_insertionSort detConfGE dr.detections
  refine ⟨?_, ?_, ?_, ?_, ?_⟩
  · unfold foundCount
    rw [htop, List.length_take, List.length_insertionSort]
  · rw [htop, List.length_take]
    exact min_le_left 3 _
  · rw [htop]
    exact List.Pairwise.sublist (List.take_sublist 3 _) hsorted
  · rw [htop]
    intro a ha b hb
    have hsplit : List.insertionSort detConfGE dr.detections =
        (List.insertionSort detConfGE dr.detections).take 3 ++
          (List.insertionSort detConfGE dr.detections).drop 3 :=
      (List.take_append_drop 3 _).symm
    have hp := hsorted
    rw [hsplit] at hp
    exact (List.pairwise_append.mp hp).2.2 a ha b hb
  · intro t ht
    unfold resultSelectedTile at ht
    cases h : topDetections (some dr) with
    | nil =>
      rw [h] at ht
      exact absurd ht (by simp)
    | cons a tl =>
      rw [h] at ht
      have hta : a = t := by
        have := ht
        simp at this
        exact this
      rw [← hta]
      exact List.mem_cons_self a tl

/-- The four-detection input of the C10 witness. -/
def c10Detections : DetectResult :=
  ⟨[⟨1, "/mock/tile1.svg", 0.91⟩, ⟨2, "/mock/tile2.svg", 0.77⟩,
    ⟨3, "/mock/tile3.svg", 0.63⟩, ⟨4, "/mock/tile1.svg", 0.55⟩]⟩

/-- C10 witness: the top-3 theorem applied at a concrete four-detection set;
the reported count is min(3, 4) = 3. -/
theorem c10_result_top3_witness :
    c10Detections.detections ≠ [] ∧
    foundCount (some c10Detections) = min 3 c10Detections.detections.length ∧
    (topDetections (some c10Detections)).length ≤ 3 := by
  have hne : c10Detections.detections ≠ [] := by simp [c10Detections]
  have h := c10_result_top3 c10Detections hne
  exact ⟨hne, h.1, h.2.1⟩

end TileSpec
